import Mathlib

/-!
Verification development for the Lissajous-chord mesh generator
(src/lissajous_generator.py).  The Python source is shallowly embedded:
float arithmetic is modelled by exact reals (or rationals where the code
only counts and compares), the note table is a finite association list,
and the point-to-cylinder loop becomes structural recursion over the
sampled point list.  trimesh library calls used by the source are
modelled by their documented formulas; the one IEEE-specific behaviour
that matters (normalizing a zero vector divides by zero and poisons the
rotation with NaN) is modelled by an Option result, none standing for a
NaN-valued matrix.
-/

namespace LissajousGen

/-! ## Note table and lookup (source lines 7-41) -/

/-- NOTE_FREQUENCIES from the source, in source order, with the float
literals read as exact decimals (e.g. 261.63 becomes 26163/100). -/
def NOTE_FREQUENCIES : List (String × ℚ) :=
  [(r"C4", 26163/100),
   (r"C#4", 27718/100), (r"Db4", 27718/100),
   (r"D4", 29366/100),
   (r"D#4", 31113/100), (r"Eb4", 31113/100),
   (r"E4", 32963/100),
   (r"F4", 34923/100),
   (r"F#4", 36999/100), (r"Gb4", 36999/100),
   (r"G4", 39200/100),
   (r"G#4", 41530/100), (r"Ab4", 41530/100),
   (r"A4", 44000/100),
   (r"A#4", 46616/100), (r"Bb4", 46616/100),
   (r"B4", 49388/100),
   (r"C5", 52325/100),
   (r"D5", 58733/100),
   (r"E5", 65925/100),
   (r"F5", 69846/100),
   (r"G5", 78399/100),
   (r"A5", 88000/100),
   (r"B5", 98777/100)]

/-- Python str.replace specialised to the shapes the source uses (a
two-character pattern replaced by one character): replace every
non-overlapping occurrence of the pattern p1 p2 by r1, scanning left to
right. -/
def replace2 (p1 p2 r1 : Char) : List Char → List Char
  | a :: b :: cs =>
      if a = p1 ∧ b = p2 then r1 :: replace2 p1 p2 r1 cs
      else a :: replace2 p1 p2 r1 (b :: cs)
  | other => other

/-- Source lines 36-39: if the (already replaced) name has more than two
characters and its second character is a sharp sign it is rebuilt
unchanged; if the second character is an uppercase B (the uppercased
flat mark) it is rebuilt with a lowercase b. -/
def normalizeTail (cs : List Char) : List Char :=
  match cs with
  | a :: b :: c :: rest =>
      if b = '#' then a :: '#' :: c :: rest
      else if b = 'B' then a :: 'b' :: c :: rest
      else a :: b :: c :: rest
  | other => other

/-- get_note_frequency (source lines 29-41): uppercase the name, apply the
four case-sensitive enharmonic replacements in source order, fix the
accidental casing, then look the result up in NOTE_FREQUENCIES. -/
def get_note_frequency (note_name : String) : Option ℚ :=
  let cs := note_name.data.map Char.toUpper
  let cs := replace2 'B' '#' 'C' cs
  let cs := replace2 'E' '#' 'F' cs
  let cs := replace2 'C' 'b' 'B' cs
  let cs := replace2 'F' 'b' 'E' cs
  let cs := normalizeTail cs
  List.lookup (String.mk cs) NOTE_FREQUENCIES

/-! ## Curve sampler (source lines 88-100) -/

/-- sample_rate = 44100.0 (source line 91). -/
def sample_rate : ℚ := 44100

/-- step_size = 1.0 / sample_rate (source line 92). -/
def step_size : ℚ := 1 / sample_rate

/-- Length of np.arange(start, stop, step): the number of grid points
start + k*step strictly below stop, i.e. max(ceil((stop-start)/step), 0). -/
def arangeLen (start stop step : ℚ) : ℕ :=
  (Int.ceil ((stop - start) / step)).toNat

/-- Number of samples the source draws: t = np.arange(0, duration +
step_size/2, step_size) (source line 93). -/
def sampleCount (duration : ℚ) : ℕ :=
  arangeLen 0 (duration + step_size / 2) step_size

/-- A 3D point, one row of the stacked points array. -/
abbrev Point3 := ℝ × ℝ × ℝ

/-- The sample at index k: the three sine waves of source lines 96-98
evaluated at t = k * step_size. -/
noncomputable def samplePoint (omega_x omega_y omega_z amplitude_x amplitude_y amplitude_z
    phase_x phase_y phase_z : ℝ) (k : ℕ) : Point3 :=
  (amplitude_x * Real.sin (2 * Real.pi * omega_x * ((k : ℝ) * ((step_size : ℚ) : ℝ)) + phase_x),
   amplitude_y * Real.sin (2 * Real.pi * omega_y * ((k : ℝ) * ((step_size : ℚ) : ℝ)) + phase_y),
   amplitude_z * Real.sin (2 * Real.pi * omega_z * ((k : ℝ) * ((step_size : ℚ) : ℝ)) + phase_z))

/-- The full points array (source line 100), one entry per arange sample. -/
noncomputable def samplePoints (omega_x omega_y omega_z amplitude_x amplitude_y amplitude_z
    phase_x phase_y phase_z : ℝ) (duration : ℚ) : List Point3 :=
  (List.range (sampleCount duration)).map
    (samplePoint omega_x omega_y omega_z amplitude_x amplitude_y amplitude_z
      phase_x phase_y phase_z)

/-! ## Vector helpers (numpy operations used by the segment loop) -/

/-- Componentwise difference end_point - start_point. -/
noncomputable def sub3 (q p : Point3) : Point3 := (q.1 - p.1, q.2.1 - p.2.1, q.2.2 - p.2.2)

/-- np.dot for 3-vectors. -/
noncomputable def dot3 (u v : Point3) : ℝ := u.1 * v.1 + u.2.1 * v.2.1 + u.2.2 * v.2.2

/-- np.cross for 3-vectors. -/
noncomputable def cross3 (u v : Point3) : Point3 :=
  (u.2.1 * v.2.2 - u.2.2 * v.2.1,
   u.2.2 * v.1 - u.1 * v.2.2,
   u.1 * v.2.1 - u.2.1 * v.1)

/-- Scalar multiple of a 3-vector. -/
noncomputable def smul3 (a : ℝ) (v : Point3) : Point3 := (a * v.1, a * v.2.1, a * v.2.2)

/-- np.linalg.norm for 3-vectors. -/
noncomputable def norm3 (v : Point3) : ℝ := Real.sqrt (dot3 v v)

/-- segment_length = np.linalg.norm(end_point - start_point)
(source lines 110-111). -/
noncomputable def segmentLength (p q : Point3) : ℝ := norm3 (sub3 q p)

/-- mid_point = (start_point + end_point) / 2 (source line 129). -/
noncomputable def midpoint3 (p q : Point3) : Point3 :=
  ((p.1 + q.1) / 2, (p.2.1 + q.2.1) / 2, (p.2.2 + q.2.2) / 2)

/-- View a coordinate triple as a Fin 3 vector. -/
noncomputable def toFin3 (v : Point3) : Fin 3 → ℝ := ![v.1, v.2.1, v.2.2]

/-! ## trimesh.transformations.rotation_matrix (external library model)

The source calls trimesh.transformations.rotation_matrix(angle,
direction), whose library definition is: normalize direction to a unit
vector u, then return diag(cos a) + outer(u,u)*(1-cos a) + skew(u*sin a)
(embedded in a homogeneous 4x4).  Normalizing divides by
sqrt(dot(direction, direction)); when the direction is the zero vector
this is an IEEE 0/0, every entry of u becomes NaN and the whole rotation
block is NaN.  The NaN outcome is modelled by none. -/

/-- The axis-angle rotation block the library builds from a unit axis
(u1, u2, u3) and the sine and cosine of the angle:
diag(cosa) + outer(u, u) * (1 - cosa) + skew(u * sina). -/
noncomputable def rodrigues (u1 u2 u3 cosa sina : ℝ) : Matrix (Fin 3) (Fin 3) ℝ :=
  Matrix.of
    ![![cosa + u1 * u1 * (1 - cosa), u1 * u2 * (1 - cosa) - u3 * sina,
        u1 * u3 * (1 - cosa) + u2 * sina],
      ![u2 * u1 * (1 - cosa) + u3 * sina, cosa + u2 * u2 * (1 - cosa),
        u2 * u3 * (1 - cosa) - u1 * sina],
      ![u3 * u1 * (1 - cosa) - u2 * sina, u3 * u2 * (1 - cosa) + u1 * sina,
        cosa + u3 * u3 * (1 - cosa)]]

noncomputable def rotation_matrix (angle : ℝ) (direction : Point3) :
    Option (Matrix (Fin 3) (Fin 3) ℝ) :=
  if norm3 direction = 0 then none
  else
    let u := smul3 (1 / norm3 direction) direction
    some (rodrigues u.1 u.2.1 u.2.2 (Real.cos angle) (Real.sin angle))

/-! ## Segment builder (source lines 106-136) -/

/-- from_v = np.array([0, 0, 1]) (source line 121). -/
def from_v : Point3 := (0, 0, 1)

/-- The rigid part of transform_matrix: the 3x3 rotation block written
into transform_matrix[:3,:3] and the translation written into
transform_matrix[:3,3] (source lines 131-133). -/
structure Affine3 where
  linear : Matrix (Fin 3) (Fin 3) ℝ
  translation : Point3

/-- One transformed cylinder mesh appended to all_meshes: the endpoints
it came from, the parameters requested from trimesh.creation.cylinder
(radius = tube_radius, height = segment_length, sections =
cylinder_segments, source lines 116-118), and the applied transform
(none when the rotation block is NaN). -/
structure SegmentMesh where
  startP : Point3
  endP : Point3
  radius : ℚ
  height : ℝ
  sections : ℕ
  transform : Option Affine3

/-- The body of one loop iteration for a non-degenerate pair
(source lines 110-136). -/
noncomputable def mkSegment (p q : Point3) (tube_radius : ℚ) (cylinder_segments : ℕ) :
    SegmentMesh :=
  let segment_vector := sub3 q p
  let segment_length := norm3 segment_vector
  let to_v := smul3 (1 / segment_length) segment_vector
  { startP := p
    endP := q
    radius := tube_radius
    height := segment_length
    sections := cylinder_segments
    transform :=
      (rotation_matrix (Real.arccos (dot3 from_v to_v)) (cross3 from_v to_v)).map
        (fun R => { linear := R, translation := midpoint3 p q }) }

/-- The loop over consecutive point pairs (source lines 106-136): a pair
with segment_length < 1e-6 is skipped, every other pair contributes one
transformed cylinder mesh. -/
noncomputable def buildSegments (tube_radius : ℚ) (cylinder_segments : ℕ) :
    List Point3 → List SegmentMesh
  | p :: q :: rest =>
      if segmentLength p q < 1e-6 then buildSegments tube_radius cylinder_segments (q :: rest)
      else mkSegment p q tube_radius cylinder_segments ::
        buildSegments tube_radius cylinder_segments (q :: rest)
  | _ => []

/-- Number of consecutive pairs whose distance is below the 1e-6
degeneracy threshold. -/
noncomputable def degeneratePairCount : List Point3 → ℕ
  | p :: q :: rest =>
      (if segmentLength p q < 1e-6 then 1 else 0) + degeneratePairCount (q :: rest)
  | _ => 0

/-! ## Mesh assembler and entry point (source lines 138-146) -/

/-- The final mesh: either the fallback icosphere of radius
tube_radius / 2 (source line 140) or the concatenation of all segment
meshes (source line 142). -/
inductive FinalMesh where
  | fallbackSphere (radius : ℚ)
  | concatenated (segs : List SegmentMesh)

/-- Source lines 138-142: if all_meshes is empty build the fallback
icosphere, otherwise concatenate. -/
noncomputable def assemble (all_meshes : List SegmentMesh) (tube_radius : ℚ) : FinalMesh :=
  match all_meshes with
  | [] => FinalMesh.fallbackSphere (tube_radius / 2)
  | ms => FinalMesh.concatenated ms

/-- Modelled from the spec: the trimesh mesh contents are not in src/.
The factory cylinder (spec section 4.2) and the fallback icosphere
(spec section 4.4) are closed triangulated meshes with vertices and
faces, so an assembled mesh is empty exactly when it is a concatenation
of zero component meshes. -/
def FinalMesh.isEmptyMesh : FinalMesh → Prop
  | FinalMesh.fallbackSphere _ => False
  | FinalMesh.concatenated segs => segs = []

/-- Outcome of create_lissajous_from_notes_3d: on an unrecognized note
the source prints the list of valid note names and returns None without
exporting (lines 82-84); otherwise it exports the final mesh to
output_filename and returns it (lines 144-146). -/
inductive CoreResult where
  | invalidNote (validNames : List String)
  | ok (mesh : FinalMesh) (writtenFile : String)

/-- create_lissajous_from_notes_3d (source lines 43-146), with the three
sine parameters, radius and sampling parameters explicit. -/
noncomputable def create_lissajous_from_notes_3d
    (note1_name note2_name note3_name : String)
    (duration : ℚ)
    (amplitude_x amplitude_y amplitude_z phase_x phase_y phase_z : ℝ)
    (tube_radius : ℚ) (cylinder_segments : ℕ)
    (output_filename : String) : CoreResult :=
  match get_note_frequency note1_name, get_note_frequency note2_name,
      get_note_frequency note3_name with
  | some omega_x, some omega_y, some omega_z =>
      let points := samplePoints ((omega_x : ℚ) : ℝ) ((omega_y : ℚ) : ℝ) ((omega_z : ℚ) : ℝ)
        amplitude_x amplitude_y amplitude_z phase_x phase_y phase_z duration
      let all_meshes := buildSegments tube_radius cylinder_segments points
      CoreResult.ok (assemble all_meshes tube_radius) output_filename
  | _, _, _ => CoreResult.invalidNote (NOTE_FREQUENCIES.map Prod.fst)

/-! ## Sampler lemmas -/

lemma sampleCount_char (duration : ℚ) (k : ℕ) :
    k < sampleCount duration ↔ (k : ℚ) * step_size < duration + step_size / 2 := by
  unfold sampleCount arangeLen
  rw [Int.lt_toNat, Int.lt_ceil]
  rw [lt_div_iff₀ (by norm_num [step_size, sample_rate] : (0:ℚ) < step_size)]
  push_cast
  constructor <;> intro h <;> linarith

lemma sampleCount_closed (duration : ℚ) :
    sampleCount duration = (Int.ceil (duration * 44100 + 1/2)).toNat := by
  unfold sampleCount arangeLen
  congr 1
  congr 1
  rw [step_size, sample_rate]
  field_simp
  ring

lemma ceil_5351 : Int.ceil ((5351:ℚ)/1000) = 6 := by
  rw [Int.ceil_eq_iff]
  norm_num

lemma floor_4851 : Int.floor ((4851:ℚ)/1000) = 4 := by
  rw [Int.floor_eq_iff]
  norm_num

/-- Claim C1, amended: with exact arange semantics an index k is sampled
iff k * step lies strictly below duration + step/2, so for positive
durations the sample count is ceil(duration * 44100 + 1/2) rather than
floor(duration * 44100) + 1, and the first sample is taken at t = 0 where
the point is (Ax sin px, Ay sin py, Az sin pz). -/
theorem sampler_count_characterization (duration : ℚ) (hD : 0 < duration)
    (omega_x omega_y omega_z amplitude_x amplitude_y amplitude_z
      phase_x phase_y phase_z : ℝ) :
    (∀ k : ℕ, k < sampleCount duration ↔ (k : ℚ) * step_size < duration + step_size / 2)
    ∧ sampleCount duration = (Int.ceil (duration * 44100 + 1/2)).toNat
    ∧ (samplePoints omega_x omega_y omega_z amplitude_x amplitude_y amplitude_z
        phase_x phase_y phase_z duration).head? =
      some (amplitude_x * Real.sin phase_x, amplitude_y * Real.sin phase_y,
        amplitude_z * Real.sin phase_z) := by
  refine ⟨fun k => sampleCount_char duration k, sampleCount_closed duration, ?_⟩
  have h0 : 0 < sampleCount duration := by
    rw [sampleCount_char]
    have hs : (0:ℚ) < step_size := by norm_num [step_size, sample_rate]
    push_cast
    linarith
  obtain ⟨m, hm⟩ : ∃ m, sampleCount duration = m + 1 :=
    ⟨sampleCount duration - 1, by omega⟩
  unfold samplePoints
  rw [hm, List.range_succ_eq_map]
  simp [samplePoint]

/-- Witness for the amended claim C1 at duration 1/44100. -/
theorem sampler_count_characterization_witness :
    (0 : ℚ) < 1/44100
    ∧ ((∀ k : ℕ, k < sampleCount (1/44100) ↔
          (k : ℚ) * step_size < 1/44100 + step_size / 2)
      ∧ sampleCount (1/44100) = (Int.ceil ((1:ℚ)/44100 * 44100 + 1/2)).toNat
      ∧ (samplePoints 1 1 1 1 1 1 0 0 0 (1/44100)).head? =
          some ((1:ℝ) * Real.sin 0, (1:ℝ) * Real.sin 0, (1:ℝ) * Real.sin 0)) :=
  ⟨by norm_num, sampler_count_characterization (1/44100) (by norm_num) 1 1 1 1 1 1 0 0 0⟩

/-- Claim C1 counterexample: at duration 11/100000 the sampler draws 6
points while the claimed formula floor(duration * 44100) + 1 gives 5. -/
theorem sampler_count_floor_formula_fails :
    (0 : ℚ) < 11/100000 ∧
    sampleCount (11/100000) ≠ (Int.floor ((11:ℚ)/100000 * 44100)).toNat + 1 := by
  constructor
  · norm_num
  · rw [sampleCount_closed]
    rw [show (11:ℚ)/100000 * 44100 + 1/2 = 5351/1000 by norm_num]
    rw [show (11:ℚ)/100000 * 44100 = 4851/1000 by norm_num]
    rw [ceil_5351, floor_4851]
    decide

/-! ## Segment builder lemmas -/

lemma buildSegments_length_aux (tube_radius : ℚ) (cylinder_segments : ℕ) :
    ∀ pts : List Point3,
      (buildSegments tube_radius cylinder_segments pts).length + degeneratePairCount pts
        = pts.length - 1
  | [] => by simp [buildSegments, degeneratePairCount]
  | [p] => by simp [buildSegments, degeneratePairCount]
  | p :: q :: rest => by
      have ih := buildSegments_length_aux tube_radius cylinder_segments (q :: rest)
      by_cases h : segmentLength p q < 1e-6
      · simp only [buildSegments, degeneratePairCount, if_pos h, List.length_cons]
        simp only [List.length_cons] at ih
        omega
      · simp only [buildSegments, degeneratePairCount, if_neg h, List.length_cons]
        simp only [List.length_cons] at ih
        omega

/-- Claim C2: every consecutive pair closer than 1e-6 contributes no mesh,
and the number of transformed cylinder meshes is (point count - 1) minus
the number of consecutive pairs whose distance is below 1e-6. -/
theorem segment_mesh_count (pts : List Point3) (tube_radius : ℚ) (cylinder_segments : ℕ) :
    (buildSegments tube_radius cylinder_segments pts).length
      = (pts.length - 1) - degeneratePairCount pts := by
  have h := buildSegments_length_aux tube_radius cylinder_segments pts
  omega

lemma mem_buildSegments (tube_radius : ℚ) (cylinder_segments : ℕ) :
    ∀ (pts : List Point3) (s : SegmentMesh),
      s ∈ buildSegments tube_radius cylinder_segments pts →
      ∃ p q, ¬ segmentLength p q < 1e-6 ∧ s = mkSegment p q tube_radius cylinder_segments
  | [], s, hs => by simp [buildSegments] at hs
  | [p], s, hs => by simp [buildSegments] at hs
  | p :: q :: rest, s, hs => by
      by_cases h : segmentLength p q < 1e-6
      · simp only [buildSegments, if_pos h] at hs
        exact mem_buildSegments tube_radius cylinder_segments (q :: rest) s hs
      · simp only [buildSegments, if_neg h, List.mem_cons] at hs
        rcases hs with rfl | hs
        · exact ⟨p, q, h, rfl⟩
        · exact mem_buildSegments tube_radius cylinder_segments (q :: rest) s hs

/-- Claim C5: every cylinder requested from the factory has height equal to
the Euclidean distance between the two endpoints of its segment. -/
theorem cylinder_height_roundtrip (tube_radius : ℚ) (cylinder_segments : ℕ)
    (pts : List Point3) (s : SegmentMesh)
    (hs : s ∈ buildSegments tube_radius cylinder_segments pts) :
    s.height = segmentLength s.startP s.endP := by
  obtain ⟨p, q, _, rfl⟩ := mem_buildSegments tube_radius cylinder_segments pts s hs
  rfl

lemma segLen_001 : segmentLength ((0:ℝ), 0, 0) ((0:ℝ), (0:ℝ), (1:ℝ)) = 1 := by
  unfold segmentLength norm3 sub3 dot3
  norm_num

lemma demo_mem : mkSegment ((0:ℝ), 0, 0) ((0:ℝ), (0:ℝ), (1:ℝ)) (1/20) 16 ∈
    buildSegments (1/20) 16 [((0:ℝ), 0, 0), ((0:ℝ), (0:ℝ), (1:ℝ))] := by
  have h : ¬ segmentLength ((0:ℝ), 0, 0) ((0:ℝ), (0:ℝ), (1:ℝ)) < 1e-6 := by
    rw [segLen_001]
    norm_num
  simp only [buildSegments, if_neg h]
  exact List.mem_cons_self _ _

/-- Witness for claim C5 on the unit segment (0,0,0) to (0,0,1). -/
theorem cylinder_height_roundtrip_witness :
    (mkSegment ((0:ℝ), 0, 0) ((0:ℝ), (0:ℝ), (1:ℝ)) (1/20) 16).height =
      segmentLength (mkSegment ((0:ℝ), 0, 0) ((0:ℝ), (0:ℝ), (1:ℝ)) (1/20) 16).startP
        (mkSegment ((0:ℝ), 0, 0) ((0:ℝ), (0:ℝ), (1:ℝ)) (1/20) 16).endP :=
  cylinder_height_roundtrip (1/20) 16 [((0:ℝ), 0, 0), ((0:ℝ), (0:ℝ), (1:ℝ))] _ demo_mem

/-! ## Assembler and entry-point theorems -/

/-- Claim C7: when the segment collection is empty the assembler
substitutes the fallback sphere of radius tube_radius / 2, and the
assembled mesh is never the empty mesh. -/
theorem assembler_fallback_nonempty (pts : List Point3) (tube_radius : ℚ)
    (cylinder_segments : ℕ) :
    (buildSegments tube_radius cylinder_segments pts = [] →
      assemble (buildSegments tube_radius cylinder_segments pts) tube_radius
        = FinalMesh.fallbackSphere (tube_radius / 2))
    ∧ ¬ (assemble (buildSegments tube_radius cylinder_segments pts)
        tube_radius).isEmptyMesh := by
  cases h : buildSegments tube_radius cylinder_segments pts with
  | nil => exact ⟨fun _ => rfl, by simp [assemble, FinalMesh.isEmptyMesh]⟩
  | cons a l =>
      refine ⟨fun hcon => absurd hcon (by simp), ?_⟩
      simp [assemble, FinalMesh.isEmptyMesh]

/-- Witness for claim C7: a single sample point yields no segments and the
assembler answers with the fallback sphere. -/
theorem assembler_fallback_nonempty_witness :
    (assemble (buildSegments (1/20) 16 [((0:ℝ), 0, 0)]) (1/20)
      = FinalMesh.fallbackSphere ((1/20 : ℚ) / 2))
    ∧ ¬ (assemble (buildSegments (1/20) 16 [((0:ℝ), 0, 0)]) (1/20)).isEmptyMesh :=
  ⟨(assembler_fallback_nonempty [((0:ℝ), 0, 0)] (1/20) 16).1 rfl,
   (assembler_fallback_nonempty [((0:ℝ), 0, 0)] (1/20) 16).2⟩

lemma sampleCount_le_one_of_nonpos (duration : ℚ) (hD : duration ≤ 0) :
    sampleCount duration ≤ 1 := by
  rw [sampleCount_closed]
  have hle : Int.ceil (duration * 44100 + 1/2) ≤ 1 :=
    Int.ceil_le.mpr (by push_cast; linarith)
  exact Int.toNat_le.mpr (by omega)

lemma buildSegments_of_short (tube_radius : ℚ) (cylinder_segments : ℕ)
    (pts : List Point3) (h : pts.length ≤ 1) :
    buildSegments tube_radius cylinder_segments pts = [] := by
  match pts, h with
  | [], _ => rfl
  | [p], _ => rfl

/-- Claim C8, amended: a call with non-positive duration is not rejected;
the sampler yields at most one point, no segments are built, and the call
succeeds, exporting the fallback sphere of radius tube_radius / 2. -/
theorem nonpositive_duration_no_error (note1_name note2_name note3_name : String)
    {w1 w2 w3 : ℚ}
    (h1 : get_note_frequency note1_name = some w1)
    (h2 : get_note_frequency note2_name = some w2)
    (h3 : get_note_frequency note3_name = some w3)
    (duration : ℚ) (hD : duration ≤ 0)
    (amplitude_x amplitude_y amplitude_z phase_x phase_y phase_z : ℝ)
    (tube_radius : ℚ) (cylinder_segments : ℕ) (output_filename : String) :
    create_lissajous_from_notes_3d note1_name note2_name note3_name duration
        amplitude_x amplitude_y amplitude_z phase_x phase_y phase_z
        tube_radius cylinder_segments output_filename
      = CoreResult.ok (FinalMesh.fallbackSphere (tube_radius / 2)) output_filename := by
  have hlen : (samplePoints ((w1 : ℚ) : ℝ) ((w2 : ℚ) : ℝ) ((w3 : ℚ) : ℝ)
      amplitude_x amplitude_y amplitude_z phase_x phase_y phase_z duration).length ≤ 1 := by
    unfold samplePoints
    rw [List.length_map, List.length_range]
    exact sampleCount_le_one_of_nonpos duration hD
  have hempty := buildSegments_of_short tube_radius cylinder_segments _ hlen
  unfold create_lissajous_from_notes_3d
  rw [h1, h2, h3]
  show CoreResult.ok (assemble (buildSegments tube_radius cylinder_segments
      (samplePoints ((w1 : ℚ) : ℝ) ((w2 : ℚ) : ℝ) ((w3 : ℚ) : ℝ)
        amplitude_x amplitude_y amplitude_z phase_x phase_y phase_z duration))
      tube_radius) output_filename = _
  rw [hempty]
  rfl

/-- Witness for amended claim C8 at duration -1. -/
theorem nonpositive_duration_no_error_witness :
    ((-1 : ℚ) ≤ 0)
    ∧ create_lissajous_from_notes_3d (r"C4") (r"E4") (r"G4") (-1) 1 1 1 0 0 0
        (1/20) 16 (r"w.stl")
      = CoreResult.ok (FinalMesh.fallbackSphere ((1/20 : ℚ) / 2)) (r"w.stl") :=
  ⟨by norm_num,
   nonpositive_duration_no_error (r"C4") (r"E4") (r"G4") rfl rfl rfl (-1)
     (by norm_num) 1 1 1 0 0 0 (1/20) 16 (r"w.stl")⟩

/-- Claim C8 counterexample: a call with duration 0 does not fail with any
invalid-parameter condition; it succeeds and exports the fallback sphere. -/
theorem zero_duration_call_not_rejected :
    create_lissajous_from_notes_3d (r"C4") (r"E4") (r"G4") 0 1 1 1 0 0 0 (1/20) 16
        (r"lissajous_3d_custom_notes.stl")
      = CoreResult.ok (FinalMesh.fallbackSphere ((1/20 : ℚ) / 2))
          (r"lissajous_3d_custom_notes.stl") := by
  have hc : sampleCount 0 = 1 := by
    rw [sampleCount_closed]
    rw [show (0:ℚ) * 44100 + 1/2 = 1/2 by norm_num]
    rw [show Int.ceil ((1:ℚ)/2) = 1 by rw [Int.ceil_eq_iff]; norm_num]
    rfl
  have hlen : (samplePoints ((26163/100 : ℚ) : ℝ) ((32963/100 : ℚ) : ℝ)
      ((39200/100 : ℚ) : ℝ) 1 1 1 0 0 0 0).length ≤ 1 := by
    unfold samplePoints
    rw [List.length_map, List.length_range, hc]
  have hempty := buildSegments_of_short (1/20) 16 _ hlen
  unfold create_lissajous_from_notes_3d
  rw [show get_note_frequency (r"C4") = some (26163/100) from rfl,
      show get_note_frequency (r"E4") = some (32963/100) from rfl,
      show get_note_frequency (r"G4") = some (39200/100) from rfl]
  show CoreResult.ok (assemble (buildSegments (1/20) 16
      (samplePoints ((26163/100 : ℚ) : ℝ) ((32963/100 : ℚ) : ℝ)
        ((39200/100 : ℚ) : ℝ) 1 1 1 0 0 0 0)) (1/20))
      (r"lissajous_3d_custom_notes.stl") = _
  rw [hempty]
  rfl

/-- Claim C9: whenever one of the three notes is unrecognized the entry
point answers with the structured failure carrying the full list of valid
note names, and never with an exported mesh. -/
theorem invalid_note_failure (note1_name note2_name note3_name : String)
    (duration : ℚ)
    (amplitude_x amplitude_y amplitude_z phase_x phase_y phase_z : ℝ)
    (tube_radius : ℚ) (cylinder_segments : ℕ) (output_filename : String)
    (h : get_note_frequency note1_name = none ∨ get_note_frequency note2_name = none
        ∨ get_note_frequency note3_name = none) :
    create_lissajous_from_notes_3d note1_name note2_name note3_name duration
        amplitude_x amplitude_y amplitude_z phase_x phase_y phase_z
        tube_radius cylinder_segments output_filename
      = CoreResult.invalidNote (NOTE_FREQUENCIES.map Prod.fst)
    ∧ ∀ m f, create_lissajous_from_notes_3d note1_name note2_name note3_name duration
        amplitude_x amplitude_y amplitude_z phase_x phase_y phase_z
        tube_radius cylinder_segments output_filename ≠ CoreResult.ok m f := by
  have hmain : create_lissajous_from_notes_3d note1_name note2_name note3_name duration
      amplitude_x amplitude_y amplitude_z phase_x phase_y phase_z
      tube_radius cylinder_segments output_filename
      = CoreResult.invalidNote (NOTE_FREQUENCIES.map Prod.fst) := by
    unfold create_lissajous_from_notes_3d
    cases hh1 : get_note_frequency note1_name <;>
      cases hh2 : get_note_frequency note2_name <;>
      cases hh3 : get_note_frequency note3_name <;>
      first
        | rfl
        | (rw [hh1, hh2, hh3] at h; simp at h)
  refine ⟨hmain, fun m f hcon => ?_⟩
  rw [hmain] at hcon
  simp at hcon

/-- Witness for claim C9 with the unknown note name H4. -/
theorem invalid_note_failure_witness :
    (get_note_frequency (r"H4") = none ∨ get_note_frequency (r"E4") = none
      ∨ get_note_frequency (r"G4") = none)
    ∧ create_lissajous_from_notes_3d (r"H4") (r"E4") (r"G4") (5/100) 1 1 1 0 0 0
        (1/20) 16 (r"o.stl")
      = CoreResult.invalidNote (NOTE_FREQUENCIES.map Prod.fst) :=
  ⟨Or.inl rfl,
   (invalid_note_failure (r"H4") (r"E4") (r"G4") (5/100) 1 1 1 0 0 0
     (1/20) 16 (r"o.stl") (Or.inl rfl)).1⟩

/-- Claim C10: uppercasing happens before the case-sensitive Cb and Fb
replacements, so those replacements never fire: for every octave digit the
lookup of Cb and Fb returns none, while B# and E# are normalized to the C
and F names and answer with exactly those table entries. -/
theorem note_normalization_enharmonics :
    ∀ d : Fin 10,
      get_note_frequency (String.mk ['C', 'b', Nat.digitChar d]) = none
      ∧ get_note_frequency (String.mk ['F', 'b', Nat.digitChar d]) = none
      ∧ get_note_frequency (String.mk ['B', '#', Nat.digitChar d])
          = List.lookup (String.mk ['C', Nat.digitChar d]) NOTE_FREQUENCIES
      ∧ get_note_frequency (String.mk ['E', '#', Nat.digitChar d])
          = List.lookup (String.mk ['F', Nat.digitChar d]) NOTE_FREQUENCIES := by
  intro d
  fin_cases d <;> exact ⟨rfl, rfl, rfl, rfl⟩

/-! ## Degenerate rotation directions (claims C3, C4, C6) -/

lemma rotation_matrix_zero_dir (angle : ℝ) :
    rotation_matrix angle ((0:ℝ), (0:ℝ), (0:ℝ)) = none := by
  have h0 : norm3 ((0:ℝ), (0:ℝ), (0:ℝ)) = 0 := by
    unfold norm3 dot3
    norm_num
  unfold rotation_matrix
  rw [if_pos h0]

lemma mkSegment_transform (p q : Point3) (tube_radius : ℚ) (cylinder_segments : ℕ) :
    (mkSegment p q tube_radius cylinder_segments).transform
      = (rotation_matrix
          (Real.arccos (dot3 from_v (smul3 (1 / segmentLength p q) (sub3 q p))))
          (cross3 from_v (smul3 (1 / segmentLength p q) (sub3 q p)))).map
          (fun R => { linear := R, translation := midpoint3 p q }) := rfl

lemma vertical_segment_transform_none (x y z1 z2 : ℝ) (tube_radius : ℚ)
    (cylinder_segments : ℕ) :
    (mkSegment (x, y, z1) (x, y, z2) tube_radius cylinder_segments).transform = none := by
  have hcross : cross3 from_v
      (smul3 (1 / segmentLength (x, y, z1) (x, y, z2)) (sub3 (x, y, z2) (x, y, z1)))
      = ((0:ℝ), (0:ℝ), (0:ℝ)) := by
    unfold from_v cross3 smul3 sub3
    norm_num
  rw [mkSegment_transform, hcross, rotation_matrix_zero_dir]
  rfl

lemma segLen_005 : segmentLength ((0:ℝ), 0, 0) ((0:ℝ), (0:ℝ), (5:ℝ)) = 5 := by
  unfold segmentLength norm3 sub3 dot3
  norm_num
  rw [show (25:ℝ) = 5^2 by norm_num, Real.sqrt_sq (by norm_num : (0:ℝ) ≤ 5)]

/-- Claim C3 evaluation: on the exactly parallel segment (0,0,0) to
(0,0,5) the code hands the zero cross product to the library rotation,
whose normalization divides by a zero norm; the applied transform is the
NaN-modelled value none, not an identity rotation. -/
theorem parallel_direction_nan_transform :
    segmentLength ((0:ℝ), 0, 0) ((0:ℝ), (0:ℝ), (5:ℝ)) = 5
    ∧ (buildSegments (1/20) 16 [((0:ℝ), 0, 0), ((0:ℝ), (0:ℝ), (5:ℝ))]).map
        (fun s => s.transform) = [none] := by
  refine ⟨segLen_005, ?_⟩
  have hnd : ¬ segmentLength ((0:ℝ), 0, 0) ((0:ℝ), (0:ℝ), (5:ℝ)) < 1e-6 := by
    rw [segLen_005]
    norm_num
  simp only [buildSegments, if_neg hnd, List.map_cons, List.map_nil]
  rw [vertical_segment_transform_none 0 0 0 5 (1/20) 16]

lemma segLen_550 : segmentLength ((0:ℝ), (0:ℝ), (5:ℝ)) ((0:ℝ), 0, 0) = 5 := by
  unfold segmentLength norm3 sub3 dot3
  norm_num
  rw [show (25:ℝ) = 5^2 by norm_num, Real.sqrt_sq (by norm_num : (0:ℝ) ≤ 5)]

/-- Claim C4 evaluation: on the exactly antiparallel segment (0,0,5) to
(0,0,0) the cross product with the reference axis is again the zero
vector, so the code does not flip the cylinder about any deterministic
perpendicular axis: the rotation is the NaN-modelled value none. -/
theorem antiparallel_direction_nan_transform :
    segmentLength ((0:ℝ), (0:ℝ), (5:ℝ)) ((0:ℝ), 0, 0) = 5
    ∧ (buildSegments (1/20) 16 [((0:ℝ), (0:ℝ), (5:ℝ)), ((0:ℝ), 0, 0)]).map
        (fun s => s.transform) = [none] := by
  refine ⟨segLen_550, ?_⟩
  have hnd : ¬ segmentLength ((0:ℝ), (0:ℝ), (5:ℝ)) ((0:ℝ), 0, 0) < 1e-6 := by
    rw [segLen_550]
    norm_num
  simp only [buildSegments, if_neg hnd, List.map_cons, List.map_nil]
  rw [vertical_segment_transform_none 0 0 5 0 (1/20) 16]

lemma segLen_115 : segmentLength ((1:ℝ), 1, 0) ((1:ℝ), (1:ℝ), (5:ℝ)) = 5 := by
  unfold segmentLength norm3 sub3 dot3
  norm_num
  rw [show (25:ℝ) = 5^2 by norm_num, Real.sqrt_sq (by norm_num : (0:ℝ) ≤ 5)]

/-- Claim C6 counterexample: the segment (1,1,0) to (1,1,5) is
non-degenerate, yet its applied transform is the NaN-modelled value none
rather than a rigid rotation with midpoint translation. -/
theorem rigid_transform_universality_fails :
    ¬ segmentLength ((1:ℝ), 1, 0) ((1:ℝ), (1:ℝ), (5:ℝ)) < 1e-6
    ∧ (buildSegments (1/20) 16 [((1:ℝ), 1, 0), ((1:ℝ), (1:ℝ), (5:ℝ))]).map
        (fun s => s.transform) = [none] := by
  have hnd : ¬ segmentLength ((1:ℝ), 1, 0) ((1:ℝ), (1:ℝ), (5:ℝ)) < 1e-6 := by
    rw [segLen_115]
    norm_num
  refine ⟨hnd, ?_⟩
  simp only [buildSegments, if_neg hnd, List.map_cons, List.map_nil]
  rw [vertical_segment_transform_none 1 1 0 5 (1/20) 16]

/-! ## Rodrigues rotation properties (claim C6) -/

lemma rodrigues_transpose (u1 u2 u3 cosa sina : ℝ) :
    (rodrigues u1 u2 u3 cosa sina).transpose = rodrigues u1 u2 u3 cosa (-sina) := by
  refine Matrix.ext fun i j => ?_
  fin_cases i <;> fin_cases j <;>
    simp only [rodrigues, Matrix.transpose_apply, Matrix.of_apply, Matrix.cons_val',
      Matrix.cons_val_zero, Matrix.cons_val_zero', Matrix.cons_val_succ',
      Matrix.cons_val_one, Matrix.head_cons, Matrix.head_fin_const,
      Matrix.empty_val', Matrix.cons_val_fin_one, Matrix.cons_val_two, Matrix.tail_cons] <;>
    ring1

set_option maxHeartbeats 1600000 in
lemma rodrigues_orthogonal (u1 u2 u3 cosa sina : ℝ)
    (hu : u1^2 + u2^2 + u3^2 = 1) (hc : cosa^2 + sina^2 = 1) :
    (rodrigues u1 u2 u3 cosa sina).transpose * rodrigues u1 u2 u3 cosa sina = 1 := by
  rw [rodrigues_transpose]
  unfold rodrigues
  rw [Matrix.mul_fin_three, Matrix.one_fin_three]
  refine Matrix.ext fun i j => ?_
  fin_cases i <;> fin_cases j <;>
    simp only [Matrix.of_apply, Matrix.cons_val', Matrix.cons_val_zero, Matrix.cons_val_zero',
      Matrix.cons_val_succ', Matrix.cons_val_one, Matrix.head_cons, Matrix.head_fin_const,
      Matrix.empty_val', Matrix.cons_val_fin_one, Matrix.cons_val_two, Matrix.tail_cons]
  · linear_combination (sina^2 + u1^2*(1-cosa)^2) * hu + (1 - u1^2) * hc
  · linear_combination (u1*u2*(1-cosa)^2) * hu + (-(u1*u2)) * hc
  · linear_combination (u1*u3*(1-cosa)^2) * hu + (-(u1*u3)) * hc
  · linear_combination (u1*u2*(1-cosa)^2) * hu + (-(u1*u2)) * hc
  · linear_combination (sina^2 + u2^2*(1-cosa)^2) * hu + (1 - u2^2) * hc
  · linear_combination (u2*u3*(1-cosa)^2) * hu + (-(u2*u3)) * hc
  · linear_combination (u1*u3*(1-cosa)^2) * hu + (-(u1*u3)) * hc
  · linear_combination (u2*u3*(1-cosa)^2) * hu + (-(u2*u3)) * hc
  · linear_combination (sina^2 + u3^2*(1-cosa)^2) * hu + (1 - u3^2) * hc

set_option maxHeartbeats 1600000 in
lemma rodrigues_det (u1 u2 u3 cosa sina : ℝ)
    (hu : u1^2 + u2^2 + u3^2 = 1) (hc : cosa^2 + sina^2 = 1) :
    (rodrigues u1 u2 u3 cosa sina).det = 1 := by
  rw [Matrix.det_fin_three]
  simp only [rodrigues, Matrix.of_apply, Matrix.cons_val', Matrix.cons_val_zero,
    Matrix.cons_val_one, Matrix.head_cons, Matrix.head_fin_const, Matrix.empty_val',
    Matrix.cons_val_fin_one, Matrix.cons_val_two, Matrix.tail_cons]
  linear_combination (sina^2 + cosa^2*(1-cosa) + (u1^2+u2^2+u3^2)*sina^2*(1-cosa)) * hu + hc

lemma rodrigues_mulVec_e3 (u1 u2 u3 cosa sina : ℝ) :
    (rodrigues u1 u2 u3 cosa sina).mulVec ![0, 0, 1]
      = ![u1 * u3 * (1 - cosa) + u2 * sina,
          u2 * u3 * (1 - cosa) - u1 * sina,
          cosa + u3 * u3 * (1 - cosa)] := by
  funext i
  fin_cases i <;>
    simp [rodrigues, Matrix.mulVec, Matrix.dotProduct, Fin.sum_univ_three]


lemma mkSegment_startP (p q : Point3) (tube_radius : ℚ) (cylinder_segments : ℕ) :
    (mkSegment p q tube_radius cylinder_segments).startP = p := rfl

lemma mkSegment_endP (p q : Point3) (tube_radius : ℚ) (cylinder_segments : ℕ) :
    (mkSegment p q tube_radius cylinder_segments).endP = q := rfl

lemma dot3_self_nonneg (v : Point3) : 0 ≤ dot3 v v := by
  unfold dot3
  nlinarith [mul_self_nonneg v.1, mul_self_nonneg v.2.1, mul_self_nonneg v.2.2]

lemma norm3_sq (v : Point3) : norm3 v ^ 2 = dot3 v v :=
  Real.sq_sqrt (dot3_self_nonneg v)

lemma dot3_from_v (v : Point3) : dot3 from_v v = v.2.2 := by
  unfold dot3 from_v
  ring

lemma cross3_from_v (v : Point3) : cross3 from_v v = (-(v.2.1), v.1, (0:ℝ)) := by
  unfold cross3 from_v
  norm_num

/-- Claim C6, amended: for every built segment whose unit direction is not
parallel or antiparallel to the z axis (nonzero cross product with the
reference axis), the applied transform is a rigid motion: its rotation
block R is orthogonal with determinant one, its translation is the
segment midpoint, and R carries the reference axis (0,0,1) onto the unit
segment direction. -/
theorem nonparallel_transform_rigid (tube_radius : ℚ) (cylinder_segments : ℕ)
    (pts : List Point3) (s : SegmentMesh)
    (hs : s ∈ buildSegments tube_radius cylinder_segments pts)
    (hcr : cross3 from_v (smul3 (1 / segmentLength s.startP s.endP) (sub3 s.endP s.startP))
      ≠ ((0:ℝ), (0:ℝ), (0:ℝ))) :
    ∃ R : Matrix (Fin 3) (Fin 3) ℝ,
      s.transform = some { linear := R, translation := midpoint3 s.startP s.endP }
      ∧ R.transpose * R = 1
      ∧ R.det = 1
      ∧ R.mulVec (toFin3 from_v)
          = toFin3 (smul3 (1 / segmentLength s.startP s.endP) (sub3 s.endP s.startP)) := by
  obtain ⟨p, q, hnd, rfl⟩ := mem_buildSegments tube_radius cylinder_segments pts s hs
  rw [mkSegment_startP, mkSegment_endP] at hcr
  rw [mkSegment_startP, mkSegment_endP, mkSegment_transform]
  have hlen : (1e-6 : ℝ) ≤ segmentLength p q := not_lt.mp hnd
  have hlp : (0:ℝ) < segmentLength p q := lt_of_lt_of_le (by norm_num) hlen
  have hlne : segmentLength p q ≠ 0 := ne_of_gt hlp
  have hdvv : dot3 (sub3 q p) (sub3 q p) = segmentLength p q ^ 2 := (norm3_sq (sub3 q p)).symm
  set t := smul3 (1 / segmentLength p q) (sub3 q p) with htdef
  have hunit : t.1 ^ 2 + t.2.1 ^ 2 + t.2.2 ^ 2 = 1 := by
    rw [htdef]
    unfold dot3 at hdvv
    unfold smul3
    field_simp
    linear_combination hdvv
  have hcrv : cross3 from_v t = (-(t.2.1), t.1, (0:ℝ)) := cross3_from_v t
  have hax : ¬ (t.1 = 0 ∧ t.2.1 = 0) := by
    rintro ⟨h1, h2⟩
    apply hcr
    rw [hcrv, h1, h2]
    norm_num
  have hpos : (0:ℝ) < t.1^2 + t.2.1^2 := by
    rcases not_and_or.mp hax with h | h
    · have h1 : (0:ℝ) < t.1^2 := pow_two_pos_of_ne_zero h
      nlinarith [sq_nonneg t.2.1]
    · have h1 : (0:ℝ) < t.2.1^2 := pow_two_pos_of_ne_zero h
      nlinarith [sq_nonneg t.1]
  have hdd : dot3 (-(t.2.1), t.1, (0:ℝ)) (-(t.2.1), t.1, (0:ℝ)) = t.1^2 + t.2.1^2 := by
    unfold dot3
    ring
  have hnorm : norm3 (-(t.2.1), t.1, (0:ℝ)) = Real.sqrt (t.1^2 + t.2.1^2) := by
    unfold norm3
    rw [hdd]
  have hnpos : (0:ℝ) < norm3 (-(t.2.1), t.1, (0:ℝ)) := by
    rw [hnorm]
    exact Real.sqrt_pos.mpr hpos
  have hnne : norm3 (-(t.2.1), t.1, (0:ℝ)) ≠ 0 := ne_of_gt hnpos
  have hn2 : norm3 (-(t.2.1), t.1, (0:ℝ)) ^ 2 = t.1^2 + t.2.1^2 := by
    rw [hnorm]
    exact Real.sq_sqrt hpos.le
  have htz : dot3 from_v t = t.2.2 := dot3_from_v t
  have hcos : Real.cos (Real.arccos t.2.2) = t.2.2 :=
    Real.cos_arccos (by nlinarith) (by nlinarith)
  have hsin : Real.sin (Real.arccos t.2.2) = norm3 (-(t.2.1), t.1, (0:ℝ)) := by
    rw [Real.sin_arccos, hnorm]
    congr 1
    linarith
  rw [htz, hcrv]
  unfold rotation_matrix
  rw [if_neg hnne]
  have hu : (smul3 (1 / norm3 (-(t.2.1), t.1, (0:ℝ))) (-(t.2.1), t.1, (0:ℝ))).1 ^ 2
      + (smul3 (1 / norm3 (-(t.2.1), t.1, (0:ℝ))) (-(t.2.1), t.1, (0:ℝ))).2.1 ^ 2
      + (smul3 (1 / norm3 (-(t.2.1), t.1, (0:ℝ))) (-(t.2.1), t.1, (0:ℝ))).2.2 ^ 2 = 1 := by
    unfold smul3
    field_simp
    linear_combination (-1 : ℝ) * hn2
  have hc : (Real.cos (Real.arccos t.2.2))^2 + (Real.sin (Real.arccos t.2.2))^2 = 1 :=
    Real.cos_sq_add_sin_sq _
  refine ⟨_, rfl, rodrigues_orthogonal _ _ _ _ _ hu hc, rodrigues_det _ _ _ _ _ hu hc, ?_⟩
  rw [show toFin3 from_v = ![(0:ℝ), 0, 1] from rfl, rodrigues_mulVec_e3]
  refine funext fun i => ?_
  fin_cases i <;>
    simp only [smul3, toFin3, hcos, hsin, Matrix.cons_val_zero, Matrix.cons_val_zero',
      Matrix.cons_val_succ', Matrix.cons_val_one, Matrix.head_cons] <;>
    field_simp


lemma segLen_100 : segmentLength ((0:ℝ), 0, 0) ((1:ℝ), (0:ℝ), (0:ℝ)) = 1 := by
  unfold segmentLength norm3 sub3 dot3
  norm_num

lemma demo2_mem : mkSegment ((0:ℝ), 0, 0) ((1:ℝ), (0:ℝ), (0:ℝ)) (1/20) 16 ∈
    buildSegments (1/20) 16 [((0:ℝ), 0, 0), ((1:ℝ), (0:ℝ), (0:ℝ))] := by
  have h : ¬ segmentLength ((0:ℝ), 0, 0) ((1:ℝ), (0:ℝ), (0:ℝ)) < 1e-6 := by
    rw [segLen_100]
    norm_num
  simp only [buildSegments, if_neg h]
  exact List.mem_cons_self _ _

lemma demo2_cross :
    cross3 from_v (smul3 (1 / segmentLength
        (mkSegment ((0:ℝ), 0, 0) ((1:ℝ), (0:ℝ), (0:ℝ)) (1/20) 16).startP
        (mkSegment ((0:ℝ), 0, 0) ((1:ℝ), (0:ℝ), (0:ℝ)) (1/20) 16).endP)
      (sub3 (mkSegment ((0:ℝ), 0, 0) ((1:ℝ), (0:ℝ), (0:ℝ)) (1/20) 16).endP
        (mkSegment ((0:ℝ), 0, 0) ((1:ℝ), (0:ℝ), (0:ℝ)) (1/20) 16).startP))
      ≠ ((0:ℝ), (0:ℝ), (0:ℝ)) := by
  rw [mkSegment_startP, mkSegment_endP, segLen_100]
  unfold from_v cross3 smul3 sub3
  norm_num

/-- Witness for amended claim C6 on the segment (0,0,0) to (1,0,0). -/
theorem nonparallel_transform_rigid_witness :
    (mkSegment ((0:ℝ), 0, 0) ((1:ℝ), (0:ℝ), (0:ℝ)) (1/20) 16 ∈
        buildSegments (1/20) 16 [((0:ℝ), 0, 0), ((1:ℝ), (0:ℝ), (0:ℝ))])
    ∧ ∃ R : Matrix (Fin 3) (Fin 3) ℝ,
        (mkSegment ((0:ℝ), 0, 0) ((1:ℝ), (0:ℝ), (0:ℝ)) (1/20) 16).transform
          = some (Affine3.mk R (midpoint3
              (mkSegment ((0:ℝ), 0, 0) ((1:ℝ), (0:ℝ), (0:ℝ)) (1/20) 16).startP
              (mkSegment ((0:ℝ), 0, 0) ((1:ℝ), (0:ℝ), (0:ℝ)) (1/20) 16).endP))
        ∧ R.transpose * R = 1
        ∧ R.det = 1
        ∧ R.mulVec (toFin3 from_v) = toFin3 (smul3
            (1 / segmentLength
              (mkSegment ((0:ℝ), 0, 0) ((1:ℝ), (0:ℝ), (0:ℝ)) (1/20) 16).startP
              (mkSegment ((0:ℝ), 0, 0) ((1:ℝ), (0:ℝ), (0:ℝ)) (1/20) 16).endP)
            (sub3 (mkSegment ((0:ℝ), 0, 0) ((1:ℝ), (0:ℝ), (0:ℝ)) (1/20) 16).endP
              (mkSegment ((0:ℝ), 0, 0) ((1:ℝ), (0:ℝ), (0:ℝ)) (1/20) 16).startP)) :=
  ⟨demo2_mem,
   nonparallel_transform_rigid (1/20) 16 [((0:ℝ), 0, 0), ((1:ℝ), (0:ℝ), (0:ℝ))]
     (mkSegment ((0:ℝ), 0, 0) ((1:ℝ), (0:ℝ), (0:ℝ)) (1/20) 16) demo2_mem demo2_cross⟩

end LissajousGen
